import Mathlib

/-!
Shallow embedding of the bounding-box analysis / PDF-crop service
(`server.js`, `analyzers/epsAnalyzer.js`, `analyzers/bboxGhostscript.js`).

Numbers: JavaScript doubles are modelled by exact rationals; the value
`NaN` (which `parseFloat` can produce and which propagates through
arithmetic) is modelled by `none` in `JsNum := Option ℚ`.  `toFixed(2)`
followed by unary `+` is modelled by `round2`, rounding half toward +∞
exactly as ECMA `toFixed` picks the larger candidate at a tie.

External processes (Ghostscript, rsvg-convert) are modelled by their
observable outcome: an exit flag plus the two output streams, or, for the
conversion pipeline, by an oracle giving the probe result of the
intermediate PDF.  File-system side effects are modelled as an explicit
effect trace.
-/

namespace FileAnalyze

/-- Model of a JavaScript number: `some q` is an ordinary (exact) value,
`none` is `NaN`. -/
abbrev JsNum := Option ℚ

/-- Embed a rational as a JS number. -/
def jn (q : ℚ) : JsNum := some q

/-- JS subtraction; `NaN` propagates. -/
def jsSub : JsNum → JsNum → JsNum
  | some a, some b => some (a - b)
  | _, _ => none

/-- JS multiplication; `NaN` propagates. -/
def jsMul : JsNum → JsNum → JsNum
  | some a, some b => some (a * b)
  | _, _ => none

/-- `x.toFixed(2)` re-read as a number: round to two decimals, ties toward
+∞ (the larger candidate, per ECMA `toFixed`). -/
def round2 (q : ℚ) : ℚ := ((⌊q * 100 + 1/2⌋ : ℤ) : ℚ) / 100

/-- `round2` lifted to JS numbers. -/
def jsRound2 : JsNum → JsNum := Option.map round2

/-- `ptToMm(pt) = pt * 25.4 / 72` (server.js line 51); `25.4/72 = 127/360`. -/
def ptToMm (q : ℚ) : ℚ := q * (127 / 360)

/-- `ptToMm` lifted to JS numbers. -/
def jsPtToMm : JsNum → JsNum := Option.map ptToMm

/-! ### Character classes of the regexes involved -/

/-- `\s` (ASCII whitespace; the Unicode extras never occur in the inputs
considered here). -/
def isWs (c : Char) : Bool :=
  c = ' ' || c = '\t' || c = '\n' || c = '\r' || c = '\x0b' || c = '\x0c'

/-- The class `[-\d.]` of the HiResBoundingBox regex. -/
def isNumTokChar (c : Char) : Bool := c = '-' || c.isDigit || c = '.'

/-! ### parseFloat on tokens drawn from `[-\d.]+`

`parseFloat` parses the longest valid decimal-literal prefix and returns
`NaN` when there is none.  Restricted to the character class `[-\d.]`
(no exponents, no `+`), that prefix is: optional `-`, digits, optional
`.` followed by digits; at least one digit must be present. -/

/-- Numeric value of a digit string. -/
def digitsVal (l : List Char) : ℕ :=
  l.foldl (fun a c => a * 10 + (c.toNat - 48)) 0

/-- Model of `parseFloat` on a token over `[-\d.]`; `none` is `NaN`. -/
def parseFloatQ (s : String) : JsNum :=
  let l := s.data
  let neg : Bool := match l with | '-' :: _ => true | _ => false
  let l1 := match l with | '-' :: t => t | _ => l
  let ip := l1.takeWhile Char.isDigit
  let r1 := l1.drop ip.length
  let fp := match r1 with | '.' :: t => t.takeWhile Char.isDigit | _ => []
  if ip.isEmpty && fp.isEmpty then none
  else
    let mag : ℚ := (digitsVal ip : ℚ) + (digitsVal fp : ℚ) / (10 : ℚ) ^ fp.length
    some (if neg then -mag else mag)

/-! ### Regex scanners

Both regexes start with a fixed literal followed by runs of
pairwise-disjoint character classes, so JavaScript's leftmost-match
backtracking search is equivalent to: at each position try
literal-then-maximal-munch, else advance one character. -/

/-- Consume an exact literal prefix. -/
def matchLit : List Char → List Char → Option (List Char)
  | [], l => some l
  | _, [] => none
  | a :: as, b :: bs => if a = b then matchLit as bs else none

/-- `\s+`: at least one whitespace character, consumed greedily. -/
def reqWs : List Char → Option (List Char)
  | [] => none
  | c :: t => if isWs c then some (t.dropWhile isWs) else none

/-- `[-\d.]+`: a nonempty maximal token of the number class. -/
def takeNumTok (l : List Char) : Option (List Char × List Char) :=
  let d := l.takeWhile isNumTokChar
  if d.isEmpty then none else some (d, l.drop d.length)

/-- `\d+`: a nonempty maximal digit run. -/
def takeDigits (l : List Char) : Option (List Char × List Char) :=
  let d := l.takeWhile Char.isDigit
  if d.isEmpty then none else some (d, l.drop d.length)

/-- Try the regex `%%HiResBoundingBox:\s*([-\d.]+)\s+([-\d.]+)\s+([-\d.]+)\s+([-\d.]+)`
anchored at the head of `l`, returning the four captured tokens. -/
def tryHiResAt (l : List Char) : Option (String × String × String × String) := do
  let r ← matchLit "%%HiResBoundingBox:".data l
  let r := r.dropWhile isWs
  let (t1, r) ← takeNumTok r
  let r ← reqWs r
  let (t2, r) ← takeNumTok r
  let r ← reqWs r
  let (t3, r) ← takeNumTok r
  let r ← reqWs r
  let (t4, _) ← takeNumTok r
  return (String.mk t1, String.mk t2, String.mk t3, String.mk t4)

/-- Leftmost match of the HiResBoundingBox regex. -/
def firstHiResAux : List Char → Option (String × String × String × String)
  | [] => none
  | c :: t =>
    match tryHiResAt (c :: t) with
    | some r => some r
    | none => firstHiResAux t

/-- `stderr.match(/%%HiResBoundingBox:\s*([-\d.]+)\s+([-\d.]+)\s+([-\d.]+)\s+([-\d.]+)/)`:
the first high-resolution bounding-box record of a stream. -/
def firstHiRes (s : String) : Option (String × String × String × String) :=
  firstHiResAux s.data

/-! ### BoundingBoxProbe (`runGhostscriptBBox`, server.js lines 56-97) -/

/-- Failure modes of the probe: the external process exited non-zero, or
no high-resolution record was found in its diagnostics. -/
inductive GsErr
  | processFailure
  | parseFailure
deriving DecidableEq, Repr

/-- Observable outcome of an external process invocation. -/
structure ProcResult where
  exitOk : Bool
  stdout : String
  stderr : String
deriving DecidableEq, Repr

/-- The bounding-box record resolved by `runGhostscriptBBox`. -/
structure GsBBox where
  llx : JsNum
  lly : JsNum
  urx : JsNum
  ury : JsNum
  widthPt : JsNum
  heightPt : JsNum
  width_mm : JsNum
  height_mm : JsNum
  source : String
deriving DecidableEq, Repr

/-- The record built from the four captured tokens (server.js lines 75-94). -/
def gsBBoxOfTokens (t1 t2 t3 t4 : String) : GsBBox :=
  let llx := parseFloatQ t1
  let lly := parseFloatQ t2
  let urx := parseFloatQ t3
  let ury := parseFloatQ t4
  let widthPt := jsSub urx llx
  let heightPt := jsSub ury lly
  { llx := llx, lly := lly, urx := urx, ury := ury
    widthPt := widthPt, heightPt := heightPt
    width_mm := jsRound2 (jsPtToMm widthPt)
    height_mm := jsRound2 (jsPtToMm heightPt)
    source := "ghostscript" }

/-- `runGhostscriptBBox` as a function of the process outcome: reject on
non-zero exit, else parse `stderr` for the first HiRes record, rejecting
when none is found. -/
def runGhostscriptBBox (p : ProcResult) : Except GsErr GsBBox :=
  if p.exitOk then
    match firstHiRes p.stderr with
    | some (t1, t2, t3, t4) => .ok (gsBBoxOfTokens t1 t2 t3 t4)
    | none => .error .parseFailure
  else .error .processFailure

/-- A well-formed probe result with rational corners, as
`runGhostscriptBBox` would resolve it (used as oracle input to the
analyzers and to the conversion pipeline). -/
def gsBBoxOf (a b c d : ℚ) : GsBBox :=
  { llx := some a, lly := some b, urx := some c, ury := some d
    widthPt := some (c - a), heightPt := some (d - b)
    width_mm := some (round2 (ptToMm (c - a)))
    height_mm := some (round2 (ptToMm (d - b)))
    source := "ghostscript" }

/-- A sample Ghostscript diagnostic stream carrying a HiRes record. -/
def gsSampleStderr : String :=
  "GPL Ghostscript: processing\n%%HiResBoundingBox: 0 0 100.5 50\n%%BoundingBox: 0 0 101 50\n"

/-! ### JSON-object values

The JavaScript result objects are modelled as ordered association lists,
so that the presence or absence of a field is part of the model. -/

/-- A JSON field value: a number, a string, or a boolean. -/
inductive JsVal
  | num (n : JsNum)
  | str (s : String)
  | bool (b : Bool)
deriving DecidableEq, Repr

/-- A JavaScript result object. -/
abbrev Obj := List (String × JsVal)

/-- The bbox fields as spread by `...bbox` from a `runGhostscriptBBox`
resolution in server.js (keys in resolve order, `source` last). -/
def gsBBoxFields (b : GsBBox) : Obj :=
  [("llx", .num b.llx), ("lly", .num b.lly), ("urx", .num b.urx), ("ury", .num b.ury),
   ("widthPt", .num b.widthPt), ("heightPt", .num b.heightPt),
   ("width_mm", .num b.width_mm), ("height_mm", .num b.height_mm),
   ("source", .str b.source)]

/-! ### EPS header reader (`analyzeEPS`, analyzers/epsAnalyzer.js) -/

/-- Try the regex `%%BoundingBox:\s+(\d+)\s+(\d+)\s+(\d+)\s+(\d+)` anchored
at the head of `l`; note the mandatory whitespace after the colon.  The
captures are digit strings, whose `parseFloat` is their numeric value. -/
def tryEpsHeaderAt (l : List Char) : Option (ℚ × ℚ × ℚ × ℚ) := do
  let r ← matchLit "%%BoundingBox:".data l
  let r ← reqWs r
  let (d1, r) ← takeDigits r
  let r ← reqWs r
  let (d2, r) ← takeDigits r
  let r ← reqWs r
  let (d3, r) ← takeDigits r
  let r ← reqWs r
  let (d4, _) ← takeDigits r
  return ((digitsVal d1 : ℚ), (digitsVal d2 : ℚ), (digitsVal d3 : ℚ), (digitsVal d4 : ℚ))

/-- Leftmost match of the `%%BoundingBox` header regex. -/
def findEpsHeaderAux : List Char → Option (ℚ × ℚ × ℚ × ℚ)
  | [] => none
  | c :: t =>
    match tryEpsHeaderAt (c :: t) with
    | some r => some r
    | none => findEpsHeaderAux t

/-- `content.match(/%%BoundingBox:\s+(\d+)\s+(\d+)\s+(\d+)\s+(\d+)/)` on the
file's text content. -/
def findEpsHeader (s : String) : Option (ℚ × ℚ × ℚ × ℚ) :=
  findEpsHeaderAux s.data

/-- The object returned by `analyzeEPS` when the header matched
(epsAnalyzer.js lines 120-131); it has no `pageCount` field. -/
def epsHeaderFields (x1 y1 x2 y2 : ℚ) : Obj :=
  [("format", .str "eps"), ("source", .str "eps_header"),
   ("llx", .num (some x1)), ("lly", .num (some y1)),
   ("urx", .num (some x2)), ("ury", .num (some y2)),
   ("widthPt", .num (some (x2 - x1))), ("heightPt", .num (some (y2 - y1))),
   ("width_mm", .num (some (round2 (ptToMm (x2 - x1))))),
   ("height_mm", .num (some (round2 (ptToMm (y2 - y1)))))]

/-- The object returned by `analyzeEPS` on the Ghostscript fallback
(`{format:'eps', ...bbox}`, with the epsAnalyzer's resolve order putting
`source` first); it has no `pageCount` field either. -/
def epsFallbackFields (b : GsBBox) : Obj :=
  [("format", .str "eps"), ("source", .str b.source),
   ("llx", .num b.llx), ("lly", .num b.lly), ("urx", .num b.urx), ("ury", .num b.ury),
   ("widthPt", .num b.widthPt), ("heightPt", .num b.heightPt),
   ("width_mm", .num b.width_mm), ("height_mm", .num b.height_mm)]

/-- `analyzeEPS(filePath)`: header read first, Ghostscript render probe
only as fallback.  The probe is passed as an oracle so that
non-invocation on the header path is expressible. -/
def analyzeEPS (content : String) (probe : Except GsErr GsBBox) : Except GsErr Obj :=
  match findEpsHeader content with
  | some (x1, y1, x2, y2) => .ok (epsHeaderFields x1 y1 x2 y2)
  | none => probe.map epsFallbackFields

/-! ### PDF / AI / SVG analyzers (server.js lines 216-270) -/

/-- `analyzePDF`: `{format:'pdf', pageCount:1, ...bbox}`. -/
def analyzePDF (b : GsBBox) : Obj :=
  ("format", .str "pdf") :: ("pageCount", .num (some 1)) :: gsBBoxFields b

/-- `analyzeAI`: `{format:'ai', pageCount:1, ...bbox}`. -/
def analyzeAI (b : GsBBox) : Obj :=
  ("format", .str "ai") :: ("pageCount", .num (some 1)) :: gsBBoxFields b

/-- `SVG_DPI_FACTOR = 96 / 72` (exactly `4/3` in the rational model). -/
def SVG_DPI_FACTOR : JsNum := some (4 / 3 : ℚ)

/-- `analyzeSVG` as a function of the probe result `raw` of the converted
baseline PDF (server.js lines 239-270): the corners are passed through
unchanged, while `widthPt`/`heightPt` are scaled by the DPI factor and the
millimeter fields are the scaled-and-re-rounded raw millimeter values. -/
def analyzeSVG (raw : GsBBox) : Obj :=
  [("format", .str "svg"), ("pageCount", .num (some 1)),
   ("llx", .num raw.llx), ("lly", .num raw.lly),
   ("urx", .num raw.urx), ("ury", .num raw.ury),
   ("widthPt", .num (jsMul raw.widthPt SVG_DPI_FACTOR)),
   ("heightPt", .num (jsMul raw.heightPt SVG_DPI_FACTOR)),
   ("width_mm", .num (jsRound2 (jsMul raw.width_mm SVG_DPI_FACTOR))),
   ("height_mm", .num (jsRound2 (jsMul raw.height_mm SVG_DPI_FACTOR))),
   ("source", .str "svg_ghostscript_96dpi_fix")]

/-- The `/analyze` route's success response: `{fileName, ...result}`. -/
def analyzeResponse (fileName : String) (result : Obj) : Obj :=
  ("fileName", .str fileName) :: result

/-! ### PDF page-box model (`normalizePdfBoxes`, server.js lines 98-121) -/

/-- A page-box rectangle. -/
structure Rect where
  x1 : ℚ
  y1 : ℚ
  x2 : ℚ
  y2 : ℚ
deriving DecidableEq, Repr

/-- A PDF page: the five standard page boxes plus its (opaque) content
stream, which `normalizePdfBoxes` never touches. -/
structure Page where
  mediaBox : Rect
  cropBox : Rect
  bleedBox : Rect
  trimBox : Rect
  artBox : Rect
  contents : String
deriving DecidableEq, Repr

/-- A loaded PDF document: its list of pages. -/
abbrev Pdf := List Page

/-- The per-page mutation of `normalizePdfBoxes`: all five boxes forced to
`0,0,width,height`, everything else untouched. -/
def setAllBoxes (w h : ℚ) (p : Page) : Page :=
  { p with
    mediaBox := ⟨0, 0, w, h⟩
    cropBox := ⟨0, 0, w, h⟩
    bleedBox := ⟨0, 0, w, h⟩
    trimBox := ⟨0, 0, w, h⟩
    artBox := ⟨0, 0, w, h⟩ }

/-- The box-rewriting loop of `normalizePdfBoxes` over all pages of the
loaded document. -/
def normalizePdfBoxesCore (doc : Pdf) (w h : ℚ) : Pdf :=
  doc.map (setAllBoxes w h)

/-- `normalizePdfBoxes` as a transformation of the file on disk: `loadOk`
tells whether the read/load/save round-trip succeeds; inside the
`try/catch` any failure leaves the already-cropped file untouched and is
only logged. -/
def normalizePdfBoxes (file : Pdf) (loadOk : Bool) (w h : ℚ) : Pdf :=
  if loadOk then normalizePdfBoxesCore file w h else file

/-- A sample page, for concrete instances. -/
def samplePage : Page :=
  { mediaBox := ⟨0, 0, 612, 792⟩, cropBox := ⟨0, 0, 612, 792⟩,
    bleedBox := ⟨0, 0, 612, 792⟩, trimBox := ⟨0, 0, 612, 792⟩,
    artBox := ⟨0, 0, 612, 792⟩, contents := "page-1-content" }

/-- `cropPdfToBbox` (server.js lines 125-166) as a function of the
Ghostscript pass outcome `gsResult` (the geometrically cropped document,
or a process error) and of whether the secondary box-normalization pass
can load the intermediate PDF.  The promise rejects exactly when the
Ghostscript pass fails; the secondary pass never rejects. -/
def cropPdfToBbox (gsResult : Except String Pdf) (normLoadOk : Bool)
    (w h : ℚ) : Except String Pdf :=
  match gsResult with
  | .error e => .error e
  | .ok cropped => .ok (normalizePdfBoxes cropped normLoadOk w h)

/-! ### `/convert-to-pdf` pipeline (server.js lines 320-493) -/

/-- The bbox object handed to `cropPdfToBbox` by the route
(`bboxForCrop`: only these four fields). -/
structure CropBox where
  llx : JsNum
  lly : JsNum
  widthPt : JsNum
  heightPt : JsNum
deriving DecidableEq, Repr

/-- Externally observable steps of the conversion pipeline, in order. -/
inductive Effect
  | convertSvg (src dst : String)
  | convertAi (src dst : String)
  | probe (path : String)
  | crop (src dst : String) (bbox : CropBox)
  | unlink (path : String)
deriving DecidableEq, Repr

/-- `path.join(convertedDir, name)`. -/
def convertedPath (name : String) : String := "converted/" ++ name

/-- `(rawBbox.source || 'ghostscript')`: JS `||` takes the fallback on the
empty (falsy) string. -/
def sourceOrGs (s : String) : String := if s = "" then "ghostscript" else s

/-- The JSON body returned by the `/convert-to-pdf` route on success, the
same for all three branches up to the `source` suffix: every geometric
field is the raw probed value, and the millimeter fields are freshly
computed as `rawBbox.widthPt * 25.4 / 72` rounded to two decimals. -/
def convertResponse (outName : String) (raw : GsBBox) (suffix : String) : Obj :=
  [("ok", .bool true),
   ("pdfPath", .str ("/converted/" ++ outName)),
   ("pdfFileName", .str outName),
   ("format", .str "pdf"),
   ("llx", .num raw.llx), ("lly", .num raw.lly),
   ("urx", .num raw.urx), ("ury", .num raw.ury),
   ("widthPt", .num raw.widthPt), ("heightPt", .num raw.heightPt),
   ("width_mm", .num (jsRound2 (jsPtToMm raw.widthPt))),
   ("height_mm", .num (jsRound2 (jsPtToMm raw.heightPt))),
   ("source", .str (sourceOrGs raw.source ++ suffix))]

/-- The SVG branch of `/convert-to-pdf` (server.js lines 345-390), as the
ordered effect trace of its success path together with the response.
`raw` is the oracle result of probing the baseline PDF.  The bbox handed
to the crop step is `rawBbox` unchanged — no DPI correction occurs in
this route. -/
def convertToPdfSvg (filePath outName : String) (raw : GsBBox) :
    List Effect × Obj :=
  let finalPdfPath := convertedPath outName
  let tmpPdfPath := finalPdfPath ++ ".tmp"
  let bboxForCrop : CropBox :=
    { llx := raw.llx, lly := raw.lly, widthPt := raw.widthPt, heightPt := raw.heightPt }
  ([.convertSvg filePath tmpPdfPath,
    .probe tmpPdfPath,
    .crop tmpPdfPath finalPdfPath bboxForCrop,
    .unlink tmpPdfPath],
   convertResponse outName raw "_svg_cropped")

/-- The AI branch of `/convert-to-pdf` (server.js lines 395-440). -/
def convertToPdfAi (filePath outName : String) (raw : GsBBox) :
    List Effect × Obj :=
  let finalPdfPath := convertedPath outName
  let tmpPdfPath := finalPdfPath ++ ".tmp"
  let bboxForCrop : CropBox :=
    { llx := raw.llx, lly := raw.lly, widthPt := raw.widthPt, heightPt := raw.heightPt }
  ([.convertAi filePath tmpPdfPath,
    .probe tmpPdfPath,
    .crop tmpPdfPath finalPdfPath bboxForCrop,
    .unlink tmpPdfPath],
   convertResponse outName raw "_ai_cropped")

/-- The PDF branch of `/convert-to-pdf` (server.js lines 445-478): the
upload is probed and cropped directly. -/
def convertToPdfPdf (filePath outName : String) (raw : GsBBox) :
    List Effect × Obj :=
  let finalPdfPath := convertedPath outName
  let bboxForCrop : CropBox :=
    { llx := raw.llx, lly := raw.lly, widthPt := raw.widthPt, heightPt := raw.heightPt }
  ([.probe filePath,
    .crop filePath finalPdfPath bboxForCrop],
   convertResponse outName raw "_pdf_cropped")

/-! ### Output naming (server.js lines 336-340)

Filenames are client-supplied basenames (no directory separators are
considered). -/

/-- The character class `[a-z0-9_\-]` with the `i` flag, i.e.
`[A-Za-z0-9_-]`. -/
def isSafeChar (c : Char) : Bool :=
  (('a' ≤ c && c ≤ 'z') || ('A' ≤ c && c ≤ 'Z') || c.isDigit || c = '_' || c = '-')

/-- `baseName.replace(/[^a-z0-9_\-]/gi, '_')`. -/
def sanitize (s : String) : String :=
  String.mk (s.data.map (fun c => if isSafeChar c then c else '_'))

/-- The suffix of `l` starting at its last `.` (inclusive), if any. -/
def extTail (l : List Char) : Option (List Char) :=
  match l with
  | [] => none
  | c :: cs =>
    match extTail cs with
    | some t => some t
    | none => if c = '.' then some (c :: cs) else none

/-- `path.extname`: the part from the last dot on, except that a leading
dot of the basename does not start an extension. -/
def extname (s : String) : String :=
  match s.data with
  | [] => ""
  | c :: cs =>
    match extTail (if c = '.' then cs else c :: cs) with
    | some t => String.mk t
    | none => ""

/-- `toLowerCase()` (ASCII). -/
def toLowerStr (s : String) : String := String.mk (s.data.map Char.toLower)

/-- `path.basename(name, ext)`: the suffix `ext` is removed only when it
is nonempty, matches case-sensitively, and removing it leaves something. -/
def basenameStrip (name ext : String) : String :=
  if ext ≠ "" && name ≠ ext && ext.data.isSuffixOf name.data then
    String.mk (name.data.take (name.data.length - ext.data.length))
  else name

/-- `safeBase` as computed by the route: the original name with its
*lowercased* extension stripped (case-sensitively!), sanitized, with
`'file'` as the fallback for an empty result. -/
def safeBase (originalname : String) : String :=
  let ext := toLowerStr (extname originalname)
  let baseName := basenameStrip originalname ext
  let s := sanitize baseName
  if s = "" then "file" else s

/-- `outName` of `/convert-to-pdf`: `` `${Date.now()}_${safeBase}.pdf` ``. -/
def outName (ts : ℕ) (originalname : String) : String :=
  toString ts ++ "_" ++ safeBase originalname ++ ".pdf"

/-- Modelled from the spec sentence of the claim: the persisted name is
`{unixTimestampMillis}_{sanitizedBaseName}.pdf` where `sanitizedBaseName`
is the extension-stripped base name, sanitized, defaulting to `file`.
Here the extension (the actual one, whatever its case) is stripped. -/
def claimedOutName (ts : ℕ) (originalname : String) : String :=
  let ext := extname originalname
  let baseName := basenameStrip originalname ext
  let s := sanitize baseName
  toString ts ++ "_" ++ (if s = "" then "file" else s) ++ ".pdf"

/-! ## Helper lemmas -/

/-- Evaluation rule for `round2` from floor bounds. -/
theorem round2_eq (q : ℚ) (z : ℤ) (h1 : (z : ℚ) ≤ q * 100 + 1/2)
    (h2 : q * 100 + 1/2 < (z : ℚ) + 1) : round2 q = (z : ℚ) / 100 := by
  unfold round2
  rw [Int.floor_eq_iff.mpr ⟨h1, h2⟩]

/-- Every character produced by `sanitize` is in the safe class. -/
theorem sanitize_chars (s : String) : ∀ c ∈ (sanitize s).data, isSafeChar c = true := by
  intro c hc
  have hc2 : c ∈ s.data.map (fun c => if isSafeChar c then c else '_') := hc
  rcases List.mem_map.mp hc2 with ⟨a, _, rfl⟩
  by_cases hsa : isSafeChar a = true
  · simp [hsa]
  · rw [if_neg hsa]
    decide

/-! ## Claim theorems -/

/-- C10: the secondary page-box normalization pass applies to every page of
the loaded PDF, not only the first — the normalized document has the same
number of pages as the input, its `i`-th page is the `i`-th input page with
all five page boxes (MediaBox, CropBox, BleedBox, TrimBox, ArtBox) set to
the identical rectangle `[0, 0, widthPt, heightPt]`, and the page contents
are untouched, so no page is removed. -/
theorem normalizePdfBoxes_all_pages_all_boxes (doc : Pdf) (w h : ℚ) :
    (normalizePdfBoxesCore doc w h).length = doc.length ∧
    (∀ i : ℕ, (normalizePdfBoxesCore doc w h)[i]? = (doc[i]?).map (setAllBoxes w h)) ∧
    (∀ p : Page, setAllBoxes w h p =
      { mediaBox := ⟨0, 0, w, h⟩, cropBox := ⟨0, 0, w, h⟩, bleedBox := ⟨0, 0, w, h⟩,
        trimBox := ⟨0, 0, w, h⟩, artBox := ⟨0, 0, w, h⟩, contents := p.contents }) := by
  refine ⟨List.length_map doc (setAllBoxes w h), fun i => ?_, fun p => rfl⟩
  simp [normalizePdfBoxesCore]

/-- C7: failure of the secondary direct page-box-mutation pass never aborts
a crop operation or propagates an error — `cropPdfToBbox` rejects exactly
when the Ghostscript pass rejects, and when the normalization pass cannot
load the cropped PDF, the geometrically-cropped document from the first
pass is delivered unchanged. -/
theorem cropPdfToBbox_norm_failure_nonfatal (gsResult : Except String Pdf)
    (normLoadOk : Bool) (w h : ℚ) :
    (∀ cropped, gsResult = .ok cropped → normLoadOk = false →
      cropPdfToBbox gsResult normLoadOk w h = .ok cropped) ∧
    (∀ cropped, gsResult = .ok cropped →
      cropPdfToBbox gsResult normLoadOk w h = .ok (normalizePdfBoxes cropped normLoadOk w h)) ∧
    (∀ e, gsResult = .error e → cropPdfToBbox gsResult normLoadOk w h = .error e) := by
  refine ⟨fun cropped hok hn => ?_, fun cropped hok => ?_, fun e he => ?_⟩
  · subst hok; simp [cropPdfToBbox, normalizePdfBoxes, hn]
  · subst hok; rfl
  · subst he; rfl

/-- C7 witness: a concrete crop in which the normalization pass fails to
load the intermediate PDF still resolves with the cropped document. -/
theorem cropPdfToBbox_norm_failure_nonfatal_witness :
    cropPdfToBbox (.ok [samplePage]) false 100 50 = .ok [samplePage] :=
  (cropPdfToBbox_norm_failure_nonfatal (.ok [samplePage]) false 100 50).1 [samplePage] rfl rfl

/-- C8 (amended): the `/analyze` responses for pdf, ai and svg inputs carry
`pageCount = 1`, but the eps/ps responses — both the header path and the
Ghostscript fallback path — contain no `pageCount` field at all. -/
theorem analyzeResponse_pageCount (fn : String) (b : GsBBox) (x1 y1 x2 y2 : ℚ) :
    List.lookup "pageCount" (analyzeResponse fn (analyzePDF b)) = some (.num (some 1)) ∧
    List.lookup "pageCount" (analyzeResponse fn (analyzeAI b)) = some (.num (some 1)) ∧
    List.lookup "pageCount" (analyzeResponse fn (analyzeSVG b)) = some (.num (some 1)) ∧
    List.lookup "pageCount" (analyzeResponse fn (epsHeaderFields x1 y1 x2 y2)) = none ∧
    List.lookup "pageCount" (analyzeResponse fn (epsFallbackFields b)) = none :=
  ⟨rfl, rfl, rfl, rfl, rfl⟩

/-- C8 counterexample: the successful analyze response for an EPS upload
whose header is `%%BoundingBox: 0 0 200 100` has no `pageCount` field, so
not every successful Analyze response contains `pageCount = 1`. -/
theorem analyzeEPS_response_lacks_pageCount :
    analyzeEPS "%%BoundingBox: 0 0 200 100" (.error .processFailure) =
      .ok (epsHeaderFields 0 0 200 100) ∧
    List.lookup "pageCount" (analyzeResponse "sample.eps" (epsHeaderFields 0 0 200 100)) =
      none := by
  constructor
  · unfold analyzeEPS
    rw [(by decide : findEpsHeader "%%BoundingBox: 0 0 200 100" = some (0, 0, 200, 100))]
  · rfl

/-- C1 (amended): for an SVG analyzed via `/analyze`, only `widthPt`,
`heightPt` and the millimeter fields are multiplied by `96/72 = 4/3`
relative to the probe result of the converted baseline PDF; the corners
`llx, lly, urx, ury` are reported raw (unscaled), so the report satisfies
`widthPt = (urx - llx) * 4/3` and `heightPt = (ury - lly) * 4/3` instead
of the BoundingBox invariant. -/
theorem analyzeSVG_corners_raw_widths_scaled (a b c d : ℚ) :
    List.lookup "llx" (analyzeSVG (gsBBoxOf a b c d)) = some (.num (some a)) ∧
    List.lookup "lly" (analyzeSVG (gsBBoxOf a b c d)) = some (.num (some b)) ∧
    List.lookup "urx" (analyzeSVG (gsBBoxOf a b c d)) = some (.num (some c)) ∧
    List.lookup "ury" (analyzeSVG (gsBBoxOf a b c d)) = some (.num (some d)) ∧
    List.lookup "widthPt" (analyzeSVG (gsBBoxOf a b c d)) =
      some (.num (some ((c - a) * (4/3)))) ∧
    List.lookup "heightPt" (analyzeSVG (gsBBoxOf a b c d)) =
      some (.num (some ((d - b) * (4/3)))) ∧
    List.lookup "width_mm" (analyzeSVG (gsBBoxOf a b c d)) =
      some (.num (some (round2 (round2 (ptToMm (c - a)) * (4/3))))) ∧
    List.lookup "height_mm" (analyzeSVG (gsBBoxOf a b c d)) =
      some (.num (some (round2 (round2 (ptToMm (d - b)) * (4/3))))) :=
  ⟨rfl, rfl, rfl, rfl, rfl, rfl, rfl, rfl⟩

/-- C1 counterexample: for the probe result `(0, 0, 100, 50)` of the
converted PDF, the SVG report keeps `urx = 100` (not multiplied by `4/3`)
while `widthPt = 400/3`, so `widthPt ≠ urx - llx`: the claimed scaling of
the corners and the BoundingBox invariant both fail. -/
theorem analyzeSVG_bbox_invariant_fails :
    List.lookup "llx" (analyzeSVG (gsBBoxOf 0 0 100 50)) = some (.num (some 0)) ∧
    List.lookup "urx" (analyzeSVG (gsBBoxOf 0 0 100 50)) = some (.num (some 100)) ∧
    (some (100 : ℚ) : JsNum) ≠ some ((100 : ℚ) * (4/3)) ∧
    List.lookup "widthPt" (analyzeSVG (gsBBoxOf 0 0 100 50)) =
      some (.num (some ((400 : ℚ)/3))) ∧
    ((400 : ℚ)/3) ≠ 100 - 0 := by
  refine ⟨rfl, rfl, by norm_num, ?_, by norm_num⟩
  have heq : ((100 : ℚ) - 0) * (4/3) = (400 : ℚ)/3 := by norm_num
  calc List.lookup "widthPt" (analyzeSVG (gsBBoxOf 0 0 100 50))
      = some (.num (some (((100 : ℚ) - 0) * (4/3)))) := rfl
    _ = some (.num (some ((400 : ℚ)/3))) := by rw [heq]

/-- C3 (amended): for an SVG whose converted-PDF probe yields `widthPt = W`,
the reported `widthPt` equals `W * 4/3` exactly, but the reported
`width_mm` is a rescaling of the raw width's already-rounded millimeter
value, `round2(round2(mm(W)) * 4/3)`, which differs in general from the
millimeter conversion of the corrected width (witnessed at `W = 0.98`);
the probe result `(0, 0, 100, 50)` yields `width_mm = 47.04` and
`height_mm = 23.52`. -/
theorem analyzeSVG_width_mm_is_rescaled (a b c d : ℚ) :
    List.lookup "widthPt" (analyzeSVG (gsBBoxOf a b c d)) =
      some (.num (some ((c - a) * (4/3)))) ∧
    List.lookup "width_mm" (analyzeSVG (gsBBoxOf a b c d)) =
      some (.num (some (round2 (round2 (ptToMm (c - a)) * (4/3))))) ∧
    round2 (round2 (ptToMm (98/100)) * (4/3)) ≠ round2 (ptToMm ((98/100) * (4/3))) := by
  refine ⟨rfl, rfl, ?_⟩
  have e1 : round2 (ptToMm ((98 : ℚ)/100)) = (35 : ℚ)/100 := by
    rw [round2_eq _ 35 (by norm_num [ptToMm]) (by norm_num [ptToMm])]
    norm_num
  have e2 : round2 ((35 : ℚ)/100 * (4/3)) = (47 : ℚ)/100 := by
    rw [round2_eq _ 47 (by norm_num) (by norm_num)]
    norm_num
  have e3 : round2 (ptToMm ((98 : ℚ)/100 * (4/3))) = (46 : ℚ)/100 := by
    rw [round2_eq _ 46 (by norm_num [ptToMm]) (by norm_num [ptToMm])]
    norm_num
  rw [e1, e2, e3]
  norm_num

/-- C3 counterexample: for the probe result `(0, 0, 100, 50)` the SVG
report has `width_mm = 47.04` and `height_mm = 23.52`, not the claimed
`47.02` and `23.51`. -/
theorem analyzeSVG_scenarioB_mm_values :
    List.lookup "width_mm" (analyzeSVG (gsBBoxOf 0 0 100 50)) =
      some (.num (some ((4704 : ℚ)/100))) ∧
    ((4704 : ℚ)/100) ≠ (4702 : ℚ)/100 ∧
    List.lookup "height_mm" (analyzeSVG (gsBBoxOf 0 0 100 50)) =
      some (.num (some ((2352 : ℚ)/100))) ∧
    ((2352 : ℚ)/100) ≠ (2351 : ℚ)/100 := by
  have w1 : round2 (ptToMm ((100 : ℚ) - 0)) = (3528 : ℚ)/100 := by
    rw [round2_eq _ 3528 (by norm_num [ptToMm]) (by norm_num [ptToMm])]
    norm_num
  have w2 : round2 ((3528 : ℚ)/100 * (4/3)) = (4704 : ℚ)/100 := by
    rw [round2_eq _ 4704 (by norm_num) (by norm_num)]
    norm_num
  have hh1 : round2 (ptToMm ((50 : ℚ) - 0)) = (1764 : ℚ)/100 := by
    rw [round2_eq _ 1764 (by norm_num [ptToMm]) (by norm_num [ptToMm])]
    norm_num
  have hh2 : round2 ((1764 : ℚ)/100 * (4/3)) = (2352 : ℚ)/100 := by
    rw [round2_eq _ 2352 (by norm_num) (by norm_num)]
    norm_num
  refine ⟨?_, by norm_num, ?_, by norm_num⟩
  · calc List.lookup "width_mm" (analyzeSVG (gsBBoxOf 0 0 100 50))
        = some (.num (some (round2 (round2 (ptToMm ((100 : ℚ) - 0)) * (4/3))))) := rfl
      _ = some (.num (some ((4704 : ℚ)/100))) := by rw [w1, w2]
  · calc List.lookup "height_mm" (analyzeSVG (gsBBoxOf 0 0 100 50))
        = some (.num (some (round2 (round2 (ptToMm ((50 : ℚ) - 0)) * (4/3))))) := rfl
      _ = some (.num (some ((2352 : ℚ)/100))) := by rw [hh1, hh2]

/-- C2 (amended): the `/convert-to-pdf` SVG branch runs convert → probe →
crop → delete-intermediate and reports, but applies no DPI correction
anywhere: the bbox handed to the crop step and every geometric field of
the response are the raw probed values, and the response `source` is the
probe source (with `'ghostscript'` substituted for an empty one) suffixed
by `'_svg_cropped'`. -/
theorem convertToPdfSvg_no_dpi_correction (fp nm : String) (raw : GsBBox) :
    (convertToPdfSvg fp nm raw).1 =
      [.convertSvg fp (convertedPath nm ++ ".tmp"),
       .probe (convertedPath nm ++ ".tmp"),
       .crop (convertedPath nm ++ ".tmp") (convertedPath nm)
         { llx := raw.llx, lly := raw.lly, widthPt := raw.widthPt, heightPt := raw.heightPt },
       .unlink (convertedPath nm ++ ".tmp")] ∧
    List.lookup "llx" (convertToPdfSvg fp nm raw).2 = some (.num raw.llx) ∧
    List.lookup "urx" (convertToPdfSvg fp nm raw).2 = some (.num raw.urx) ∧
    List.lookup "widthPt" (convertToPdfSvg fp nm raw).2 = some (.num raw.widthPt) ∧
    List.lookup "heightPt" (convertToPdfSvg fp nm raw).2 = some (.num raw.heightPt) ∧
    List.lookup "width_mm" (convertToPdfSvg fp nm raw).2 =
      some (.num (jsRound2 (jsPtToMm raw.widthPt))) ∧
    List.lookup "source" (convertToPdfSvg fp nm raw).2 =
      some (.str (sourceOrGs raw.source ++ "_svg_cropped")) :=
  ⟨rfl, rfl, rfl, rfl, rfl, rfl, rfl⟩

/-- C2 counterexample: for an SVG whose baseline-PDF probe yields
`(0, 0, 100, 50)`, the bbox used for cropping and the reported `widthPt`
are the raw `100`, not the DPI-corrected `100 * 4/3 = 400/3`: no DPI
correction is applied in the `/convert-to-pdf` SVG branch. -/
theorem convertToPdfSvg_crop_uses_raw_bbox :
    (convertToPdfSvg "upload.svg" "out.pdf" (gsBBoxOf 0 0 100 50)).1 =
      [.convertSvg "upload.svg" "converted/out.pdf.tmp",
       .probe "converted/out.pdf.tmp",
       .crop "converted/out.pdf.tmp" "converted/out.pdf"
         { llx := some 0, lly := some 0, widthPt := some 100, heightPt := some 50 },
       .unlink "converted/out.pdf.tmp"] ∧
    List.lookup "widthPt" (convertToPdfSvg "upload.svg" "out.pdf" (gsBBoxOf 0 0 100 50)).2 =
      some (.num (some 100)) ∧
    (some (100 : ℚ) : JsNum) ≠ some ((400 : ℚ)/3) := by
  have e1 : ((100 : ℚ) - 0) = 100 := by norm_num
  have e2 : ((50 : ℚ) - 0) = 50 := by norm_num
  refine ⟨?_, ?_, by norm_num⟩
  · calc (convertToPdfSvg "upload.svg" "out.pdf" (gsBBoxOf 0 0 100 50)).1
        = [.convertSvg "upload.svg" "converted/out.pdf.tmp",
           .probe "converted/out.pdf.tmp",
           .crop "converted/out.pdf.tmp" "converted/out.pdf"
             { llx := some 0, lly := some 0,
               widthPt := some ((100 : ℚ) - 0), heightPt := some ((50 : ℚ) - 0) },
           .unlink "converted/out.pdf.tmp"] := rfl
      _ = _ := by rw [e1, e2]
  · calc List.lookup "widthPt"
          (convertToPdfSvg "upload.svg" "out.pdf" (gsBBoxOf 0 0 100 50)).2
        = some (.num (some ((100 : ℚ) - 0))) := rfl
      _ = some (.num (some 100)) := by rw [e1]

/-- C4: the conversion pipeline performs no degenerate-box validation — for
an SVG whose baseline-PDF probe yields the zero-width box
`(0, 0, 0, 50)`, the crop step is still invoked, with `widthPt = 0` in the
bbox handed to `cropPdfToBbox`, contradicting the required rejection
before crop. -/
theorem convertToPdf_crops_degenerate_bbox :
    Effect.crop "converted/out.pdf.tmp" "converted/out.pdf"
      { llx := some 0, lly := some 0, widthPt := some 0, heightPt := some 50 }
      ∈ (convertToPdfSvg "upload.svg" "out.pdf" (gsBBoxOf 0 0 0 50)).1 := by
  have e1 : ((0 : ℚ) - 0) = 0 := by norm_num
  have e2 : ((50 : ℚ) - 0) = 50 := by norm_num
  have h3 : Effect.crop "converted/out.pdf.tmp" "converted/out.pdf"
      { llx := some 0, lly := some 0,
        widthPt := some ((0 : ℚ) - 0), heightPt := some ((50 : ℚ) - 0) }
      ∈ (convertToPdfSvg "upload.svg" "out.pdf" (gsBBoxOf 0 0 0 50)).1 := by
    simp [convertToPdfSvg, gsBBoxOf, convertedPath]
  rw [e1, e2] at h3
  exact h3

/-- C5: for an EPS file whose content matches the integer `%%BoundingBox`
header regex, `analyzeEPS` returns the header-derived report — tagged
`source = 'eps_header'`, with the integer corners from the comment and
millimeter fields `pt * 25.4 / 72` rounded to 2 decimals — for every
possible probe outcome, i.e. without invoking the render probe; the header
`%%BoundingBox: 0 0 200 100` in particular yields `widthPt = 200`,
`heightPt = 100`, `width_mm = 70.56`, `height_mm = 35.28`. -/
theorem analyzeEPS_header_short_circuits :
    (∀ (content : String) (x1 y1 x2 y2 : ℚ),
      findEpsHeader content = some (x1, y1, x2, y2) →
      ∀ probe : Except GsErr GsBBox,
        analyzeEPS content probe = .ok (epsHeaderFields x1 y1 x2 y2)) ∧
    epsHeaderFields 0 0 200 100 =
      [("format", .str "eps"), ("source", .str "eps_header"),
       ("llx", .num (some 0)), ("lly", .num (some 0)),
       ("urx", .num (some 200)), ("ury", .num (some 100)),
       ("widthPt", .num (some 200)), ("heightPt", .num (some 100)),
       ("width_mm", .num (some ((7056 : ℚ)/100))),
       ("height_mm", .num (some ((3528 : ℚ)/100)))] := by
  constructor
  · intro content x1 y1 x2 y2 hmatch probe
    unfold analyzeEPS
    rw [hmatch]
  · have w1 : round2 (ptToMm ((200 : ℚ) - 0)) = (7056 : ℚ)/100 := by
      rw [round2_eq _ 7056 (by norm_num [ptToMm]) (by norm_num [ptToMm])]
      norm_num
    have w2 : round2 (ptToMm ((100 : ℚ) - 0)) = (3528 : ℚ)/100 := by
      rw [round2_eq _ 3528 (by norm_num [ptToMm]) (by norm_num [ptToMm])]
      norm_num
    calc epsHeaderFields 0 0 200 100
        = [("format", .str "eps"), ("source", .str "eps_header"),
           ("llx", .num (some 0)), ("lly", .num (some 0)),
           ("urx", .num (some 200)), ("ury", .num (some 100)),
           ("widthPt", .num (some ((200 : ℚ) - 0))),
           ("heightPt", .num (some ((100 : ℚ) - 0))),
           ("width_mm", .num (some (round2 (ptToMm ((200 : ℚ) - 0))))),
           ("height_mm", .num (some (round2 (ptToMm ((100 : ℚ) - 0)))))] := rfl
      _ = _ := by rw [w1, w2]; norm_num

/-- C5 witness: the scenario-A header is found by the regex and the
analyzer returns the header report even when the probe would fail. -/
theorem analyzeEPS_header_short_circuits_witness :
    findEpsHeader "%%BoundingBox: 0 0 200 100" = some (0, 0, 200, 100) ∧
    analyzeEPS "%%BoundingBox: 0 0 200 100" (.error .processFailure) =
      .ok (epsHeaderFields 0 0 200 100) :=
  ⟨by decide,
   analyzeEPS_header_short_circuits.1 "%%BoundingBox: 0 0 200 100" 0 0 200 100
     (by decide) (.error .processFailure)⟩

/-- C6: the bounding-box probe fails exactly when the external process
exits non-zero (process failure) or when it succeeds but its stderr
contains no HiResBoundingBox record (parse failure); on success it returns
the record built from the first HiResBoundingBox match of stderr — with
`widthPt = urx - llx`, `heightPt = ury - lly`, millimeter fields derived
from them, and `source = 'ghostscript'` — and the result never depends on
stdout. -/
theorem runGhostscriptBBox_failure_iff (ok : Bool) (sout serr : String) :
    (runGhostscriptBBox ⟨ok, sout, serr⟩ = .error .processFailure ↔ ok = false) ∧
    (runGhostscriptBBox ⟨ok, sout, serr⟩ = .error .parseFailure ↔
      ok = true ∧ firstHiRes serr = none) ∧
    (∀ t1 t2 t3 t4, firstHiRes serr = some (t1, t2, t3, t4) → ok = true →
      runGhostscriptBBox ⟨ok, sout, serr⟩ = .ok (gsBBoxOfTokens t1 t2 t3 t4)) ∧
    (∀ bb, runGhostscriptBBox ⟨ok, sout, serr⟩ = .ok bb →
      bb.widthPt = jsSub bb.urx bb.llx ∧ bb.heightPt = jsSub bb.ury bb.lly ∧
      bb.width_mm = jsRound2 (jsPtToMm bb.widthPt) ∧
      bb.height_mm = jsRound2 (jsPtToMm bb.heightPt) ∧
      bb.source = "ghostscript") ∧
    (∀ sout2, runGhostscriptBBox ⟨ok, sout, serr⟩ = runGhostscriptBBox ⟨ok, sout2, serr⟩) := by
  refine ⟨?_, ?_, ?_, ?_, fun sout2 => rfl⟩
  · cases ok with
    | false => simp [runGhostscriptBBox]
    | true =>
      simp only [runGhostscriptBBox, if_true]
      cases h : firstHiRes serr with
      | none => simp
      | some r =>
        obtain ⟨t1, t2, t3, t4⟩ := r
        simp
  · cases ok with
    | false => simp [runGhostscriptBBox]
    | true =>
      simp only [runGhostscriptBBox, if_true]
      cases h : firstHiRes serr with
      | none => simp
      | some r =>
        obtain ⟨t1, t2, t3, t4⟩ := r
        simp
  · intro t1 t2 t3 t4 hm hok
    subst hok
    simp [runGhostscriptBBox, hm]
  · intro bb hbb
    cases ok with
    | false => simp [runGhostscriptBBox] at hbb
    | true =>
      simp only [runGhostscriptBBox, if_true] at hbb
      cases h : firstHiRes serr with
      | none => rw [h] at hbb; simp at hbb
      | some r =>
        obtain ⟨t1, t2, t3, t4⟩ := r
        rw [h] at hbb
        simp only [Except.ok.injEq] at hbb
        subst hbb
        exact ⟨rfl, rfl, rfl, rfl, rfl⟩

/-- C6 witness: a concrete successful run whose stderr carries a
HiResBoundingBox record resolves with the parsed record. -/
theorem runGhostscriptBBox_failure_iff_witness :
    firstHiRes gsSampleStderr = some ("0", "0", "100.5", "50") ∧
    runGhostscriptBBox ⟨true, "", gsSampleStderr⟩ =
      .ok (gsBBoxOfTokens "0" "0" "100.5" "50") :=
  ⟨by decide,
   (runGhostscriptBBox_failure_iff true "" gsSampleStderr).2.2.1 "0" "0" "100.5" "50"
     (by decide) rfl⟩

/-- C9 (amended): the persisted output name of `/convert-to-pdf` is
`{timestamp}_{safeBase}.pdf` where `safeBase` is nonempty and contains
only characters of `[A-Za-z0-9_-]`; it equals the claimed
extension-stripped-then-sanitized form whenever the original filename's
extension is already lowercase, but the stripping uses the lowercased
extension case-sensitively, so an uppercase extension is not stripped. -/
theorem outName_sanitization (ts : ℕ) (nm : String) :
    outName ts nm = toString ts ++ "_" ++ safeBase nm ++ ".pdf" ∧
    safeBase nm ≠ "" ∧
    (∀ c ∈ (safeBase nm).data, isSafeChar c = true) ∧
    (extname nm = toLowerStr (extname nm) → outName ts nm = claimedOutName ts nm) := by
  refine ⟨rfl, ?_, ?_, ?_⟩
  · unfold safeBase
    by_cases hs : sanitize (basenameStrip nm (toLowerStr (extname nm))) = ""
    · simp [hs]
    · simp [hs]
  · intro c hc
    simp only [safeBase] at hc
    by_cases hs : sanitize (basenameStrip nm (toLowerStr (extname nm))) = ""
    · simp only [hs, if_pos rfl] at hc
      have hc2 : c ∈ ['f', 'i', 'l', 'e'] := hc
      fin_cases hc2 <;> decide
    · rw [if_neg hs] at hc
      exact sanitize_chars _ c hc
  · intro hlow
    simp only [outName, claimedOutName, safeBase]
    rw [← hlow]

/-- C9 witness: for a lowercase-extension filename the code's name and the
claimed name agree. -/
theorem outName_sanitization_witness :
    extname "logo.svg" = toLowerStr (extname "logo.svg") ∧
    outName 5 "logo.svg" = claimedOutName 5 "logo.svg" :=
  ⟨by decide, (outName_sanitization 5 "logo.svg").2.2.2 (by decide)⟩

/-- C9 counterexample: the uploaded name `LOGO.SVG` has accepted extension
`.svg` after lowercasing, but `path.basename(name, '.svg')` does not strip
the uppercase suffix, so the persisted name is `123_LOGO_SVG.pdf` while
the claimed formula gives `123_LOGO.pdf`. -/
theorem outName_uppercase_ext_mismatch :
    toLowerStr (extname "LOGO.SVG") = ".svg" ∧
    outName 123 "LOGO.SVG" = "123_LOGO_SVG.pdf" ∧
    claimedOutName 123 "LOGO.SVG" = "123_LOGO.pdf" ∧
    outName 123 "LOGO.SVG" ≠ claimedOutName 123 "LOGO.SVG" := by
  refine ⟨by decide, by decide, by decide, by decide⟩

end FileAnalyze
